import Mathlib

/-!
openvpn3-linux: the log stream writers and the generator of the Python constants.

A shallow embedding of

* `src/python/openvpn3/gen-python-constants.cpp` (`FlagType`, `ConstantMapping`,
  `MAP`, `Generator`, `main`), translated statement by statement, and
* `src/log/logwriters/streamwriter.hpp` (`StreamLogWriter`, `ColourStreamWriter`),
  of which the repository excerpt holds the declarations only.

Output streams are modelled by the text written to them so far (a `String`);
`s << x` is `s ++ x` and `std::endl` is the line break character.
-/

namespace OpenVPN3

/-! gen-python-constants.cpp -/

/-- The manipulator `std::endl`: ends the line (the flush has no effect on the text). -/
def endl : String := "\n"

/-- The enumeration `enum class FlagType { NONE = 0, INTFLAG = 1 }`.  A scoped
enumeration has a fixed underlying type (`int`), so every `int` is a value of the
type; `raw` is that underlying integer. -/
structure FlagType where
  raw : Int
deriving DecidableEq, Repr

/-- The enumerator `FlagType::NONE = 0`. -/
def FlagType.NONE : FlagType := ⟨0⟩

/-- The enumerator `FlagType::INTFLAG = 1`. -/
def FlagType.INTFLAG : FlagType := ⟨1⟩

/-- The record `template <class T> struct ConstantMapping { name; T value; }`.
`T` is an enumeration type; `value` is the underlying integer of the enumerator
stored in the record (the only thing `Generator` reads of it). -/
structure ConstantMapping where
  name : String
  value : Int
deriving DecidableEq, Repr

/-- The line `#define MAP(t, m, n, v) m.push_back(ConstantMapping<t>(n, t::v))`:
appends one record at the end of the vector `m`. -/
def MAP (m : List ConstantMapping) (n : String) (v : Int) : List ConstantMapping :=
  m ++ [ConstantMapping.mk n v]

/-- The conversion `(unsigned int) m.value`: an integer conversion to the 32-bit
unsigned type, which is reduction modulo `2^32`. -/
def castUnsignedInt (v : Int) : Nat := (v % 2 ^ 32).toNat

/-- The function `Generator(name, mapping, flagtype = FlagType::NONE)`.  `cout` is
the text already on standard output; the result is the text afterwards. -/
def Generator (cout : String) (name : String) (mapping : List ConstantMapping)
    (flagtype : FlagType := FlagType.NONE) : String :=
  let c : String := ""
  let c : String :=
    match flagtype.raw with
    | 1 => c ++ "class " ++ name ++ "(IntFlag):" ++ endl
    | _ => c ++ "class " ++ name ++ "(Enum):" ++ endl
  let c : String :=
    mapping.foldl
      (fun c m => c ++ "    " ++ m.name ++ " = " ++ toString (castUnsignedInt m.value) ++ endl) c
  let cout := cout ++ c ++ endl
  let cout := cout ++ endl
  cout

/-- The enumerators of `StatusMajor` (`dbus/constants.hpp`) that `main` names. -/
inductive StatusMajor where
  | UNSET | CONFIG | CONNECTION | SESSION | PKCS11 | PROCESS
deriving DecidableEq, Repr

/-- The enumerators of `StatusMinor` (`dbus/constants.hpp`) that `main` names. -/
inductive StatusMinor where
  | UNSET | CFG_ERROR | CFG_OK | CFG_INLINE_MISSING | CFG_REQUIRE_USER | CONN_INIT
  | CONN_CONNECTING | CONN_CONNECTED | CONN_DISCONNECTING | CONN_DISCONNECTED | CONN_FAILED
  | CONN_AUTH_FAILED | CONN_RECONNECTING | CONN_PAUSING | CONN_PAUSED | CONN_RESUMING
  | CONN_DONE | SESS_NEW | SESS_BACKEND_COMPLETED | SESS_REMOVED | SESS_AUTH_USERPASS
  | SESS_AUTH_CHALLENGE | SESS_AUTH_URL | PKCS11_SIGN | PKCS11_ENCRYPT | PKCS11_DECRYPT
  | PKCS11_VERIFY | PROC_STARTED | PROC_STOPPED | PROC_KILLED
deriving DecidableEq, Repr

/-- The enumerators of `SessionManager::EventType` (`sessionmgr/sessionmgr-events.hpp`)
that `main` names. -/
inductive SessionManager.EventType where
  | SESS_CREATED | SESS_DESTROYED
deriving DecidableEq, Repr

/-- The enumerators of `ClientAttentionType` (`dbus/constants.hpp`) that `main` names. -/
inductive ClientAttentionType where
  | UNSET | CREDENTIALS | PKCS11 | ACCESS_PERM
deriving DecidableEq, Repr

/-- The enumerators of `ClientAttentionGroup` (`dbus/constants.hpp`) that `main` names. -/
inductive ClientAttentionGroup where
  | UNSET | USER_PASSWORD | HTTP_PROXY_CREDS | PK_PASSPHRASE | CHALLENGE_STATIC
  | CHALLENGE_DYNAMIC | CHALLENGE_AUTH_PENDING | PKCS11_SIGN | PKCS11_DECRYPT | OPEN_URL
deriving DecidableEq, Repr

/-- The enumerators of `NetCfgChangeType` (`netcfg/netcfg-changetype.hpp`) that `main` names. -/
inductive NetCfgChangeType where
  | UNSET | DEVICE_ADDED | DEVICE_REMOVED | IPADDR_ADDED | IPADDR_REMOVED | ROUTE_ADDED
  | ROUTE_REMOVED | ROUTE_EXCLUDED | DNS_SERVER_ADDED | DNS_SERVER_REMOVED | DNS_SEARCH_ADDED
  | DNS_SEARCH_REMOVED
deriving DecidableEq, Repr

/-- The values of the constants `main` mirrors.  The headers that declare them
(`dbus/constants.hpp`, `netcfg/netcfg-changetype.hpp`, `sessionmgr/sessionmgr-events.hpp`)
are not part of the excerpt, so the underlying integer of every enumerator is a
parameter of `main`. -/
structure Constants where
  statusMajor : StatusMajor → Int
  statusMinor : StatusMinor → Int
  eventType : SessionManager.EventType → Int
  clientAttentionType : ClientAttentionType → Int
  clientAttentionGroup : ClientAttentionGroup → Int
  netCfgChangeType : NetCfgChangeType → Int

/-- The program entry `main(argc, argv)`.  `argv0` is `argv[0]`, the name the program
was started under; `PACKAGE_GUIVERSION` is the version identifier of `config.h` (a build
parameter, the header is not part of the excerpt); `K` gives the constants; `cout` is
the text already on standard output.  The result is the text on standard output
afterwards and the exit status. -/
def main (argv0 : String) (PACKAGE_GUIVERSION : String) (K : Constants) (cout : String) :
    String × Int :=
  let cout := cout ++ "#" ++ endl
    ++ "# Generated by " ++ argv0 ++ endl
    ++ "# as part of the project build." ++ endl
    ++ "#" ++ endl
    ++ "# This file is part of openvpn3-linux, licensed" ++ endl
    ++ "# under AGPLv3.  Please see the main COPYRIGHT.md" ++ endl
    ++ "# file packaged with the project for more details." ++ endl
    ++ "#" ++ endl
    ++ "# Do not modify this file.  This file needs to be" ++ endl
    ++ "# regenerated each time any of the OpenVPN 3 Linux" ++ endl
    ++ "# constants are modified." ++ endl
    ++ "#" ++ endl
    ++ endl

  let cout := cout ++ "from enum import Enum, IntFlag" ++ endl
    ++ endl

  let cout := cout ++ "VERSION = '" ++ PACKAGE_GUIVERSION ++ "'"
    ++ endl
    ++ endl

  let maj : List ConstantMapping := []
  let maj := MAP maj "UNSET" (K.statusMajor StatusMajor.UNSET)
  let maj := MAP maj "CFG_ERROR" (K.statusMajor StatusMajor.CONFIG)
  let maj := MAP maj "CONNECTION" (K.statusMajor StatusMajor.CONNECTION)
  let maj := MAP maj "SESSION" (K.statusMajor StatusMajor.SESSION)
  let maj := MAP maj "PKCS11" (K.statusMajor StatusMajor.PKCS11)
  let maj := MAP maj "PROCESS" (K.statusMajor StatusMajor.PROCESS)
  let cout := Generator cout "StatusMajor" maj

  let min : List ConstantMapping := []
  let min := MAP min "UNSET" (K.statusMinor StatusMinor.UNSET)
  let min := MAP min "CFG_ERROR" (K.statusMinor StatusMinor.CFG_ERROR)
  let min := MAP min "CFG_OK" (K.statusMinor StatusMinor.CFG_OK)
  let min := MAP min "CFG_INLINE_MISSING" (K.statusMinor StatusMinor.CFG_INLINE_MISSING)
  let min := MAP min "CFG_REQUIRE_USER" (K.statusMinor StatusMinor.CFG_REQUIRE_USER)
  let min := MAP min "CONN_INIT" (K.statusMinor StatusMinor.CONN_INIT)
  let min := MAP min "CONN_CONNECTING" (K.statusMinor StatusMinor.CONN_CONNECTING)
  let min := MAP min "CONN_CONNECTED" (K.statusMinor StatusMinor.CONN_CONNECTED)
  let min := MAP min "CONN_DISCONNECTING" (K.statusMinor StatusMinor.CONN_DISCONNECTING)
  let min := MAP min "CONN_DISCONNECTED" (K.statusMinor StatusMinor.CONN_DISCONNECTED)
  let min := MAP min "CONN_FAILED" (K.statusMinor StatusMinor.CONN_FAILED)
  let min := MAP min "CONN_AUTH_FAILED" (K.statusMinor StatusMinor.CONN_AUTH_FAILED)
  let min := MAP min "CONN_RECONNECTING" (K.statusMinor StatusMinor.CONN_RECONNECTING)
  let min := MAP min "CONN_PAUSING" (K.statusMinor StatusMinor.CONN_PAUSING)
  let min := MAP min "CONN_PAUSED" (K.statusMinor StatusMinor.CONN_PAUSED)
  let min := MAP min "CONN_RESUMING" (K.statusMinor StatusMinor.CONN_RESUMING)
  let min := MAP min "CONN_DONE" (K.statusMinor StatusMinor.CONN_DONE)
  let min := MAP min "SESS_NEW" (K.statusMinor StatusMinor.SESS_NEW)
  let min := MAP min "SESS_BACKEND_COMPLETED" (K.statusMinor StatusMinor.SESS_BACKEND_COMPLETED)
  let min := MAP min "SESS_REMOVED" (K.statusMinor StatusMinor.SESS_REMOVED)
  let min := MAP min "SESS_AUTH_USERPASS" (K.statusMinor StatusMinor.SESS_AUTH_USERPASS)
  let min := MAP min "SESS_AUTH_CHALLENGE" (K.statusMinor StatusMinor.SESS_AUTH_CHALLENGE)
  let min := MAP min "SESS_AUTH_URL" (K.statusMinor StatusMinor.SESS_AUTH_URL)
  let min := MAP min "PKCS11_SIGN" (K.statusMinor StatusMinor.PKCS11_SIGN)
  let min := MAP min "PKCS11_ENCRYPT" (K.statusMinor StatusMinor.PKCS11_ENCRYPT)
  let min := MAP min "PKCS11_DECRYPT" (K.statusMinor StatusMinor.PKCS11_DECRYPT)
  let min := MAP min "PKCS11_VERIFY" (K.statusMinor StatusMinor.PKCS11_VERIFY)
  let min := MAP min "PROC_STARTED" (K.statusMinor StatusMinor.PROC_STARTED)
  let min := MAP min "PROC_STOPPED" (K.statusMinor StatusMinor.PROC_STOPPED)
  let min := MAP min "PROC_KILLED" (K.statusMinor StatusMinor.PROC_KILLED)
  let cout := Generator cout "StatusMinor" min

  let smgrev : List ConstantMapping := []
  let smgrev := MAP smgrev "SESS_CREATED" (K.eventType SessionManager.EventType.SESS_CREATED)
  let smgrev := MAP smgrev "SESS_DESTROYED" (K.eventType SessionManager.EventType.SESS_DESTROYED)
  let cout := Generator cout "SessionManagerEventType" smgrev

  let client_att_type : List ConstantMapping := []
  let client_att_type := MAP client_att_type "UNSET" (K.clientAttentionType ClientAttentionType.UNSET)
  let client_att_type := MAP client_att_type "CREDENTIALS" (K.clientAttentionType ClientAttentionType.CREDENTIALS)
  let client_att_type := MAP client_att_type "PKCS11" (K.clientAttentionType ClientAttentionType.PKCS11)
  let client_att_type := MAP client_att_type "ACCESS_PERM" (K.clientAttentionType ClientAttentionType.ACCESS_PERM)
  let cout := Generator cout "ClientAttentionType" client_att_type

  let client_att_group : List ConstantMapping := []
  let client_att_group := MAP client_att_group "UNSET" (K.clientAttentionGroup ClientAttentionGroup.UNSET)
  let client_att_group := MAP client_att_group "USER_PASSWORD" (K.clientAttentionGroup ClientAttentionGroup.USER_PASSWORD)
  let client_att_group := MAP client_att_group "HTTP_PROXY_CREDS" (K.clientAttentionGroup ClientAttentionGroup.HTTP_PROXY_CREDS)
  let client_att_group := MAP client_att_group "PK_PASSPHRASE" (K.clientAttentionGroup ClientAttentionGroup.PK_PASSPHRASE)
  let client_att_group := MAP client_att_group "CHALLENGE_STATIC" (K.clientAttentionGroup ClientAttentionGroup.CHALLENGE_STATIC)
  let client_att_group := MAP client_att_group "CHALLENGE_DYNAMIC" (K.clientAttentionGroup ClientAttentionGroup.CHALLENGE_DYNAMIC)
  let client_att_group := MAP client_att_group "CHALLENGE_AUTH_PENDING" (K.clientAttentionGroup ClientAttentionGroup.CHALLENGE_AUTH_PENDING)
  let client_att_group := MAP client_att_group "PKCS11_SIGN" (K.clientAttentionGroup ClientAttentionGroup.PKCS11_SIGN)
  let client_att_group := MAP client_att_group "PKCS11_DECRYPT" (K.clientAttentionGroup ClientAttentionGroup.PKCS11_DECRYPT)
  let client_att_group := MAP client_att_group "OPEN_URL" (K.clientAttentionGroup ClientAttentionGroup.OPEN_URL)
  let cout := Generator cout "ClientAttentionGroup" client_att_group

  let netcfg_changetype : List ConstantMapping := []
  let netcfg_changetype := MAP netcfg_changetype "UNSET" (K.netCfgChangeType NetCfgChangeType.UNSET)
  let netcfg_changetype := MAP netcfg_changetype "DEVICE_ADDED" (K.netCfgChangeType NetCfgChangeType.DEVICE_ADDED)
  let netcfg_changetype := MAP netcfg_changetype "DEVICE_REMOVED" (K.netCfgChangeType NetCfgChangeType.DEVICE_REMOVED)
  let netcfg_changetype := MAP netcfg_changetype "IPADDR_ADDED" (K.netCfgChangeType NetCfgChangeType.IPADDR_ADDED)
  let netcfg_changetype := MAP netcfg_changetype "IPADDR_REMOVED" (K.netCfgChangeType NetCfgChangeType.IPADDR_REMOVED)
  let netcfg_changetype := MAP netcfg_changetype "ROUTE_ADDED" (K.netCfgChangeType NetCfgChangeType.ROUTE_ADDED)
  let netcfg_changetype := MAP netcfg_changetype "ROUTE_REMOVED" (K.netCfgChangeType NetCfgChangeType.ROUTE_REMOVED)
  let netcfg_changetype := MAP netcfg_changetype "ROUTE_EXCLUDED" (K.netCfgChangeType NetCfgChangeType.ROUTE_EXCLUDED)
  let netcfg_changetype := MAP netcfg_changetype "DNS_SERVER_ADDED" (K.netCfgChangeType NetCfgChangeType.DNS_SERVER_ADDED)
  let netcfg_changetype := MAP netcfg_changetype "DNS_SERVER_REMOVED" (K.netCfgChangeType NetCfgChangeType.DNS_SERVER_REMOVED)
  let netcfg_changetype := MAP netcfg_changetype "DNS_SEARCH_ADDED" (K.netCfgChangeType NetCfgChangeType.DNS_SEARCH_ADDED)
  let netcfg_changetype := MAP netcfg_changetype "DNS_SEARCH_REMOVED" (K.netCfgChangeType NetCfgChangeType.DNS_SEARCH_REMOVED)
  let cout := Generator cout "NetCfgChangeType" netcfg_changetype FlagType.INTFLAG

  (cout, 0)

/-! log/logwriters/streamwriter.hpp

The header declares the two writers; the bodies of their member functions
(`streamwriter.cpp`) and the headers `log/logwriter.hpp` and `log/colourengine.hpp`
are not part of the excerpt.  The data members are taken from the declarations, the
behaviour of the member functions from the specification. -/

/-- Modelled from the spec: the type `LogGroup` of `log/logwriter.hpp`, which is
missing from the excerpt; "enumerated tag identifying the subsystem/component that
emitted the event", represented by the number of the tag. -/
structure LogGroup where
  tag : Nat
deriving DecidableEq, Repr

/-- Modelled from the spec: the type `LogCategory` of `log/logwriter.hpp`, which is
missing from the excerpt; "enumerated tag identifying severity/kind of event",
represented by the number of the tag. -/
structure LogCategory where
  tag : Nat
deriving DecidableEq, Repr

/-- Modelled from the spec: the failure signal `Fault` of
`Write(...) -> void | Fault`; the one fault of the taxonomy that `Write` can meet is
the sink fault, "the destination cannot accept further bytes". -/
inductive Fault where
  | sinkFault
deriving DecidableEq, Repr

/-- Modelled from the spec: the sink, the `std::ostream` a writer is bound to, "the
byte-oriented destination a writer targets".  `descriptor` is what identifies it ("a
symbolic name such as stdout or a path"), `content` the bytes it has taken so far,
`attempts` the number of write operations made on it, and `accepts n` tells whether
it takes the write operation number `n` or faults on it. -/
structure Sink where
  descriptor : String
  content : String
  attempts : Nat
  accepts : Nat → Bool

/-- Modelled from the spec: one write operation on the sink, missing from the excerpt
as part of the writers' bodies.  An accepted operation appends the bytes; a faulted
one appends nothing and signals the fault. -/
def Sink.write (dest : Sink) (bytes : String) : Except Fault Unit × Sink :=
  if dest.accepts dest.attempts then
    (Except.ok (), { dest with content := dest.content ++ bytes, attempts := dest.attempts + 1 })
  else
    (Except.error Fault.sinkFault, { dest with attempts := dest.attempts + 1 })

/-- The class `StreamLogWriter`.  Its data member is the reference
`std::ostream &dest`; the record carries the state of the stream referred to. -/
structure StreamLogWriter where
  dest : Sink

/-- Modelled from the spec: the body of `StreamLogWriter::GetLogWriterInfo()`, which is
missing from the excerpt; "returns a stable, human-readable descriptor identifying the
sink". -/
def StreamLogWriter.GetLogWriterInfo (w : StreamLogWriter) : String :=
  w.dest.descriptor

/-- Modelled from the spec: the body of
`StreamLogWriter::Write(data, colour_init = "", colour_reset = "")`, which is missing
from the excerpt; it "writes the exact byte sequence `prefix ++ message ++ suffix` to
the sink as one logical unit", with no implicit newline, and a sink fault "surfaces to
the caller rather than being silently swallowed or retried".  The result is the
outcome reported to the caller and the writer afterwards. -/
def StreamLogWriter.Write (w : StreamLogWriter) (data : String) (colour_init : String := "")
    (colour_reset : String := "") : Except Fault Unit × StreamLogWriter :=
  let r := w.dest.write (colour_init ++ data ++ colour_reset)
  (r.1, { w with dest := r.2 })

/-- Modelled from the spec: the class `ColourEngine` of `log/colourengine.hpp`, which
is missing from the excerpt; the colour policy, a "pure, synchronous function mapping
(group, category) → (prefix decoration, suffix decoration)", total over all pairs. -/
structure ColourEngine where
  Decorate : LogGroup → LogCategory → String × String

/-- Modelled from the spec: the no-colour policy, which "always returns empty
decorations". -/
def ColourEngine.noColour : ColourEngine where
  Decorate _ _ := ("", "")

/-- The class `ColourStreamWriter : public StreamLogWriter`.  Its own data member is
the pointer `ColourEngine *colours`, set by the constructor; the record carries the
policy pointed to. -/
structure ColourStreamWriter extends StreamLogWriter where
  colours : ColourEngine

/-- Modelled from the spec: the body of `ColourStreamWriter::GetLogWriterInfo()`, which
is missing from the excerpt; it "delegates to the wrapped Plain Writer's descriptor". -/
def ColourStreamWriter.GetLogWriterInfo (w : ColourStreamWriter) : String :=
  w.toStreamLogWriter.GetLogWriterInfo

/-- Modelled from the spec: the body of `ColourStreamWriter::Write(grp, ctg, data)`,
which is missing from the excerpt; it "looks up
`(prefix, suffix) = Policy.Decorate(group, category)`, then delegates to the plain form
as `Write(message, prefix, suffix)`". -/
def ColourStreamWriter.Write (w : ColourStreamWriter) (grp : LogGroup) (ctg : LogCategory)
    (data : String) : Except Fault Unit × ColourStreamWriter :=
  let decoration := w.colours.Decorate grp ctg
  let r := w.toStreamLogWriter.Write data decoration.1 decoration.2
  (r.1, { w with toStreamLogWriter := r.2 })

/-! Reading the generated text -/

/-- The text made of the given lines, each one ended by a line break. -/
def unlines : List String → String
  | [] => ""
  | l :: ls => l ++ endl ++ unlines ls

/-- The head line of an enumeration block: `class`, the name, and the base class,
`IntFlag` for a namespace marked `FlagType::INTFLAG` and `Enum` for any other. -/
def classLine (name : String) (flagtype : FlagType) : String :=
  "class " ++ name ++ (if flagtype = FlagType.INTFLAG then "(IntFlag):" else "(Enum):")

/-- The member line of the loop body of `Generator`: four spaces, the member name,
` = `, and the decimal digits of the value converted to `unsigned int`. -/
def memberLine (m : ConstantMapping) : String :=
  "    " ++ m.name ++ " = " ++ toString (castUnsignedInt m.value)

/-- The member line as the specification words it: four spaces, the member name,
` = `, and the decimal rendering of the value itself (not of a conversion of it). -/
def specMemberLine (m : ConstantMapping) : String :=
  "    " ++ m.name ++ " = " ++ toString m.value

/-- A constant namespace, the input of the generator as the specification describes
it: a name, the ordered members with their values, and the flag marker. -/
structure ConstantNamespace where
  name : String
  mapping : List ConstantMapping
  flagtype : FlagType
deriving DecidableEq, Repr

/-- The constant namespaces `main` is run over, in the order of its calls of
`Generator`: for each call the name, the vector built by the `MAP` lines before it,
and the flag argument (`FlagType::NONE` where the call omits it). -/
def namespaces (K : Constants) : List ConstantNamespace :=
  [
    ConstantNamespace.mk "StatusMajor"
      [
        ConstantMapping.mk "UNSET" (K.statusMajor StatusMajor.UNSET),
        ConstantMapping.mk "CFG_ERROR" (K.statusMajor StatusMajor.CONFIG),
        ConstantMapping.mk "CONNECTION" (K.statusMajor StatusMajor.CONNECTION),
        ConstantMapping.mk "SESSION" (K.statusMajor StatusMajor.SESSION),
        ConstantMapping.mk "PKCS11" (K.statusMajor StatusMajor.PKCS11),
        ConstantMapping.mk "PROCESS" (K.statusMajor StatusMajor.PROCESS)
      ]
      FlagType.NONE,
    ConstantNamespace.mk "StatusMinor"
      [
        ConstantMapping.mk "UNSET" (K.statusMinor StatusMinor.UNSET),
        ConstantMapping.mk "CFG_ERROR" (K.statusMinor StatusMinor.CFG_ERROR),
        ConstantMapping.mk "CFG_OK" (K.statusMinor StatusMinor.CFG_OK),
        ConstantMapping.mk "CFG_INLINE_MISSING" (K.statusMinor StatusMinor.CFG_INLINE_MISSING),
        ConstantMapping.mk "CFG_REQUIRE_USER" (K.statusMinor StatusMinor.CFG_REQUIRE_USER),
        ConstantMapping.mk "CONN_INIT" (K.statusMinor StatusMinor.CONN_INIT),
        ConstantMapping.mk "CONN_CONNECTING" (K.statusMinor StatusMinor.CONN_CONNECTING),
        ConstantMapping.mk "CONN_CONNECTED" (K.statusMinor StatusMinor.CONN_CONNECTED),
        ConstantMapping.mk "CONN_DISCONNECTING" (K.statusMinor StatusMinor.CONN_DISCONNECTING),
        ConstantMapping.mk "CONN_DISCONNECTED" (K.statusMinor StatusMinor.CONN_DISCONNECTED),
        ConstantMapping.mk "CONN_FAILED" (K.statusMinor StatusMinor.CONN_FAILED),
        ConstantMapping.mk "CONN_AUTH_FAILED" (K.statusMinor StatusMinor.CONN_AUTH_FAILED),
        ConstantMapping.mk "CONN_RECONNECTING" (K.statusMinor StatusMinor.CONN_RECONNECTING),
        ConstantMapping.mk "CONN_PAUSING" (K.statusMinor StatusMinor.CONN_PAUSING),
        ConstantMapping.mk "CONN_PAUSED" (K.statusMinor StatusMinor.CONN_PAUSED),
        ConstantMapping.mk "CONN_RESUMING" (K.statusMinor StatusMinor.CONN_RESUMING),
        ConstantMapping.mk "CONN_DONE" (K.statusMinor StatusMinor.CONN_DONE),
        ConstantMapping.mk "SESS_NEW" (K.statusMinor StatusMinor.SESS_NEW),
        ConstantMapping.mk "SESS_BACKEND_COMPLETED" (K.statusMinor StatusMinor.SESS_BACKEND_COMPLETED),
        ConstantMapping.mk "SESS_REMOVED" (K.statusMinor StatusMinor.SESS_REMOVED),
        ConstantMapping.mk "SESS_AUTH_USERPASS" (K.statusMinor StatusMinor.SESS_AUTH_USERPASS),
        ConstantMapping.mk "SESS_AUTH_CHALLENGE" (K.statusMinor StatusMinor.SESS_AUTH_CHALLENGE),
        ConstantMapping.mk "SESS_AUTH_URL" (K.statusMinor StatusMinor.SESS_AUTH_URL),
        ConstantMapping.mk "PKCS11_SIGN" (K.statusMinor StatusMinor.PKCS11_SIGN),
        ConstantMapping.mk "PKCS11_ENCRYPT" (K.statusMinor StatusMinor.PKCS11_ENCRYPT),
        ConstantMapping.mk "PKCS11_DECRYPT" (K.statusMinor StatusMinor.PKCS11_DECRYPT),
        ConstantMapping.mk "PKCS11_VERIFY" (K.statusMinor StatusMinor.PKCS11_VERIFY),
        ConstantMapping.mk "PROC_STARTED" (K.statusMinor StatusMinor.PROC_STARTED),
        ConstantMapping.mk "PROC_STOPPED" (K.statusMinor StatusMinor.PROC_STOPPED),
        ConstantMapping.mk "PROC_KILLED" (K.statusMinor StatusMinor.PROC_KILLED)
      ]
      FlagType.NONE,
    ConstantNamespace.mk "SessionManagerEventType"
      [
        ConstantMapping.mk "SESS_CREATED" (K.eventType SessionManager.EventType.SESS_CREATED),
        ConstantMapping.mk "SESS_DESTROYED" (K.eventType SessionManager.EventType.SESS_DESTROYED)
      ]
      FlagType.NONE,
    ConstantNamespace.mk "ClientAttentionType"
      [
        ConstantMapping.mk "UNSET" (K.clientAttentionType ClientAttentionType.UNSET),
        ConstantMapping.mk "CREDENTIALS" (K.clientAttentionType ClientAttentionType.CREDENTIALS),
        ConstantMapping.mk "PKCS11" (K.clientAttentionType ClientAttentionType.PKCS11),
        ConstantMapping.mk "ACCESS_PERM" (K.clientAttentionType ClientAttentionType.ACCESS_PERM)
      ]
      FlagType.NONE,
    ConstantNamespace.mk "ClientAttentionGroup"
      [
        ConstantMapping.mk "UNSET" (K.clientAttentionGroup ClientAttentionGroup.UNSET),
        ConstantMapping.mk "USER_PASSWORD" (K.clientAttentionGroup ClientAttentionGroup.USER_PASSWORD),
        ConstantMapping.mk "HTTP_PROXY_CREDS" (K.clientAttentionGroup ClientAttentionGroup.HTTP_PROXY_CREDS),
        ConstantMapping.mk "PK_PASSPHRASE" (K.clientAttentionGroup ClientAttentionGroup.PK_PASSPHRASE),
        ConstantMapping.mk "CHALLENGE_STATIC" (K.clientAttentionGroup ClientAttentionGroup.CHALLENGE_STATIC),
        ConstantMapping.mk "CHALLENGE_DYNAMIC" (K.clientAttentionGroup ClientAttentionGroup.CHALLENGE_DYNAMIC),
        ConstantMapping.mk "CHALLENGE_AUTH_PENDING" (K.clientAttentionGroup ClientAttentionGroup.CHALLENGE_AUTH_PENDING),
        ConstantMapping.mk "PKCS11_SIGN" (K.clientAttentionGroup ClientAttentionGroup.PKCS11_SIGN),
        ConstantMapping.mk "PKCS11_DECRYPT" (K.clientAttentionGroup ClientAttentionGroup.PKCS11_DECRYPT),
        ConstantMapping.mk "OPEN_URL" (K.clientAttentionGroup ClientAttentionGroup.OPEN_URL)
      ]
      FlagType.NONE,
    ConstantNamespace.mk "NetCfgChangeType"
      [
        ConstantMapping.mk "UNSET" (K.netCfgChangeType NetCfgChangeType.UNSET),
        ConstantMapping.mk "DEVICE_ADDED" (K.netCfgChangeType NetCfgChangeType.DEVICE_ADDED),
        ConstantMapping.mk "DEVICE_REMOVED" (K.netCfgChangeType NetCfgChangeType.DEVICE_REMOVED),
        ConstantMapping.mk "IPADDR_ADDED" (K.netCfgChangeType NetCfgChangeType.IPADDR_ADDED),
        ConstantMapping.mk "IPADDR_REMOVED" (K.netCfgChangeType NetCfgChangeType.IPADDR_REMOVED),
        ConstantMapping.mk "ROUTE_ADDED" (K.netCfgChangeType NetCfgChangeType.ROUTE_ADDED),
        ConstantMapping.mk "ROUTE_REMOVED" (K.netCfgChangeType NetCfgChangeType.ROUTE_REMOVED),
        ConstantMapping.mk "ROUTE_EXCLUDED" (K.netCfgChangeType NetCfgChangeType.ROUTE_EXCLUDED),
        ConstantMapping.mk "DNS_SERVER_ADDED" (K.netCfgChangeType NetCfgChangeType.DNS_SERVER_ADDED),
        ConstantMapping.mk "DNS_SERVER_REMOVED" (K.netCfgChangeType NetCfgChangeType.DNS_SERVER_REMOVED),
        ConstantMapping.mk "DNS_SEARCH_ADDED" (K.netCfgChangeType NetCfgChangeType.DNS_SEARCH_ADDED),
        ConstantMapping.mk "DNS_SEARCH_REMOVED" (K.netCfgChangeType NetCfgChangeType.DNS_SEARCH_REMOVED)
      ]
      FlagType.INTFLAG
  ]

/-- The lines `main` writes before the first enumeration: the comment header, then
the line of the Python import and the version line, with the empty lines between. -/
def preambleLines (argv0 PACKAGE_GUIVERSION : String) : List String :=
  [ "#",
    "# Generated by " ++ argv0,
    "# as part of the project build.",
    "#",
    "# This file is part of openvpn3-linux, licensed",
    "# under AGPLv3.  Please see the main COPYRIGHT.md",
    "# file packaged with the project for more details.",
    "#",
    "# Do not modify this file.  This file needs to be",
    "# regenerated each time any of the OpenVPN 3 Linux",
    "# constants are modified.",
    "#",
    "",
    "from enum import Enum, IntFlag",
    "",
    "VERSION = '" ++ PACKAGE_GUIVERSION ++ "'",
    "" ]

/-- The lines of one enumeration block: the head line, one line per member, and the
two empty lines that close the block. -/
def blockLines (ns : ConstantNamespace) : List String :=
  classLine ns.name ns.flagtype :: (ns.mapping.map memberLine ++ ["", ""])

/-- The lines of the generated file: the preamble, then the block of every namespace
in order. -/
def fileLines (argv0 PACKAGE_GUIVERSION : String) (nss : List ConstantNamespace) :
    List String :=
  preambleLines argv0 PACKAGE_GUIVERSION ++ (nss.map blockLines).flatten

/-- Whether a line opens a class declaration, that is, starts with `class `. -/
def isClassLine (l : String) : Bool :=
  "class ".data.isPrefixOf l.data

/-- A table of constants for evaluating `main` on a concrete input: every enumerator
has the number of its position in its enumeration. -/
def positionalConstants : Constants where
  statusMajor e := e.toCtorIdx
  statusMinor e := e.toCtorIdx
  eventType e := e.toCtorIdx
  clientAttentionType e := e.toCtorIdx
  clientAttentionGroup e := e.toCtorIdx
  netCfgChangeType e := e.toCtorIdx

/-! Decimal rendering -/

theorem digitChar_isDigit (k : Nat) (hk : k < 10) : (Nat.digitChar k).isDigit = true := by
  interval_cases k <;> decide

theorem digitChar_value (k : Nat) (hk : k < 10) : (Nat.digitChar k).toNat - '0'.toNat = k := by
  interval_cases k <;> decide

theorem toDigitsCore_ne_nil (fuel n : Nat) (ds : List Char) (h : ds ≠ [] ∨ 0 < fuel) :
    Nat.toDigitsCore 10 fuel n ds ≠ [] := by
  induction fuel generalizing n ds with
  | zero =>
    rcases h with h | h
    · simpa [Nat.toDigitsCore] using h
    · omega
  | succ fuel ih =>
    rw [Nat.toDigitsCore]
    split
    · simp
    · exact ih _ _ (Or.inl (by simp))

theorem toDigitsCore_isDigit (fuel n : Nat) (ds : List Char)
    (h : ∀ c ∈ ds, c.isDigit = true) :
    ∀ c ∈ Nat.toDigitsCore 10 fuel n ds, c.isDigit = true := by
  induction fuel generalizing n ds with
  | zero => simpa [Nat.toDigitsCore] using h
  | succ fuel ih =>
    have hd : (Nat.digitChar (n % 10)).isDigit = true :=
      digitChar_isDigit _ (Nat.mod_lt _ (by decide))
    have hcons : ∀ c ∈ Nat.digitChar (n % 10) :: ds, c.isDigit = true := by
      intro c hc
      rcases List.mem_cons.mp hc with rfl | hc
      · exact hd
      · exact h c hc
    rw [Nat.toDigitsCore]
    split
    · exact hcons
    · exact ih _ _ hcons

theorem toDigitsCore_foldl (fuel n : Nat) (ds : List Char) (h : n < fuel) :
    (Nat.toDigitsCore 10 fuel n ds).foldl (fun n c => n * 10 + (c.toNat - '0'.toNat)) 0
      = ds.foldl (fun n c => n * 10 + (c.toNat - '0'.toNat)) n := by
  induction fuel generalizing n ds with
  | zero => omega
  | succ fuel ih =>
    have hv := digitChar_value (n % 10) (Nat.mod_lt _ (by decide))
    rw [Nat.toDigitsCore]
    split
    · next h0 =>
      have hn : n % 10 = n := Nat.mod_eq_of_lt (by omega)
      simp only [List.foldl_cons, Nat.zero_mul, Nat.zero_add]
      rw [hv, hn]
    · next h0 =>
      rw [ih (n / 10) _ (by omega)]
      simp only [List.foldl_cons, hv]
      congr 1
      omega

/-- Reading the decimal rendering of a natural number gives the number back. -/
theorem toNat?_repr (n : Nat) : (Nat.repr n).toNat? = some n := by
  have hne : Nat.repr n ≠ "" := by
    intro h
    have hd : (Nat.repr n).data = [] := by rw [h]
    exact toDigitsCore_ne_nil (n + 1) n [] (Or.inr (Nat.succ_pos n)) hd
  have hall : (Nat.repr n).all (fun c => c.isDigit) = true := by
    rw [String.all_eq, List.all_eq_true]
    exact toDigitsCore_isDigit (n + 1) n [] (by simp)
  have hemp : (Nat.repr n).isEmpty = false := by
    rw [Bool.eq_false_iff]
    intro h
    exact hne ((String.isEmpty_iff _).mp h)
  have hval : (Nat.repr n).foldl (fun n c => n * 10 + (c.toNat - '0'.toNat)) 0 = n := by
    rw [String.foldl_eq]
    exact toDigitsCore_foldl (n + 1) n [] (Nat.lt_succ_self n)
  simp only [String.toNat?, String.isNat, hemp, hall, hval, Bool.not_false, Bool.and_self,
    if_true]

/-! The text `Generator` writes -/

theorem castUnsignedInt_of_range (v : Int) (h0 : 0 ≤ v) (h1 : v < 2 ^ 32) :
    (castUnsignedInt v : Int) = v := by
  unfold castUnsignedInt
  rw [Int.emod_eq_of_lt h0 h1]
  exact Int.toNat_of_nonneg h0

theorem castUnsignedInt_lt (v : Int) : castUnsignedInt v < 2 ^ 32 := by
  unfold castUnsignedInt
  have h0 : 0 ≤ v % 2 ^ 32 := Int.emod_nonneg _ (by norm_num)
  have h1 : v % 2 ^ 32 < 2 ^ 32 := Int.emod_lt_of_pos _ (by norm_num)
  omega

theorem toString_of_range (v : Int) (h0 : 0 ≤ v) (h1 : v < 2 ^ 32) :
    toString (castUnsignedInt v) = toString v := by
  obtain ⟨n, rfl⟩ := Int.eq_ofNat_of_zero_le h0
  have h : castUnsignedInt (n : Int) = n := Int.ofNat_inj.mp (castUnsignedInt_of_range _ h0 h1)
  rw [h]
  rfl

theorem memberLine_of_range (m : ConstantMapping) (h0 : 0 ≤ m.value) (h1 : m.value < 2 ^ 32) :
    memberLine m = specMemberLine m := by
  unfold memberLine specMemberLine
  rw [toString_of_range _ h0 h1]

theorem foldl_memberLine (mapping : List ConstantMapping) (c : String) :
    mapping.foldl
      (fun c m => c ++ "    " ++ m.name ++ " = " ++ toString (castUnsignedInt m.value) ++ endl) c
      = c ++ unlines (mapping.map memberLine) := by
  induction mapping generalizing c with
  | nil => simp [unlines]
  | cons m ms ih =>
    rw [List.foldl_cons, ih]
    simp only [List.map_cons, unlines, memberLine, String.append_assoc]

theorem Generator_eq (cout name : String) (mapping : List ConstantMapping)
    (flagtype : FlagType) :
    Generator cout name mapping flagtype
      = cout ++ unlines (classLine name flagtype :: mapping.map memberLine) ++ endl ++ endl := by
  unfold Generator
  simp only [foldl_memberLine]
  split
  · next h =>
    have hf : flagtype = FlagType.INTFLAG := by
      cases flagtype
      simp_all [FlagType.INTFLAG]
    simp only [hf, unlines, classLine, if_true, String.append_assoc, String.empty_append]
  · next h =>
    have hf : flagtype ≠ FlagType.INTFLAG := by
      intro hf
      exact h (by rw [hf]; rfl)
    simp only [hf, unlines, classLine, if_false, String.append_assoc, String.empty_append]

theorem unlines_append (a b : List String) : unlines (a ++ b) = unlines a ++ unlines b := by
  induction a with
  | nil => simp [unlines]
  | cons l ls ih =>
    show l ++ endl ++ unlines (ls ++ b) = (l ++ endl ++ unlines ls) ++ unlines b
    rw [ih]
    simp only [String.append_assoc]

theorem Generator_eq_blockLines (cout : String) (ns : ConstantNamespace) :
    Generator cout ns.name ns.mapping ns.flagtype = cout ++ unlines (blockLines ns) := by
  rw [Generator_eq, blockLines, ← List.cons_append, unlines_append]
  simp only [unlines, String.append_assoc, String.empty_append, String.append_empty]

/-! The text `main` writes -/

set_option maxRecDepth 8000 in
theorem main_eq (argv0 PACKAGE_GUIVERSION : String) (K : Constants) (cout : String) :
    main argv0 PACKAGE_GUIVERSION K cout
      = (cout ++ unlines (fileLines argv0 PACKAGE_GUIVERSION (namespaces K)), 0) := by
  have hG : ∀ (cout name : String) (mapping : List ConstantMapping) (flagtype : FlagType),
      Generator cout name mapping flagtype
        = cout ++ unlines (blockLines (ConstantNamespace.mk name mapping flagtype)) :=
    fun cout name mapping flagtype =>
      Generator_eq_blockLines cout (ConstantNamespace.mk name mapping flagtype)
  simp only [main, hG, MAP, List.nil_append, List.cons_append, fileLines, namespaces,
    List.map_cons, List.map_nil, List.flatten, unlines_append, preambleLines, unlines,
    String.append_assoc, String.empty_append, String.append_empty]

/-! Claims about the generator -/

theorem get_zero_of_data (s : String) (c : Char) (cs : List Char) (h : s.data = c :: cs) :
    s.get 0 = c := by
  cases s
  simp only at h
  subst h
  rfl

theorem toInt?_toString_ofNat (n : Nat) : (toString (n : Int)).toInt? = some (n : Int) := by
  have hs : toString (n : Int) = Nat.repr n := rfl
  rw [hs]
  have hne := toDigitsCore_ne_nil (n + 1) n [] (Or.inr (Nat.succ_pos n))
  have hdig := toDigitsCore_isDigit (n + 1) n [] (by simp)
  have hdata : (Nat.repr n).data = Nat.toDigitsCore 10 (n + 1) n [] := rfl
  cases hl : Nat.toDigitsCore 10 (n + 1) n [] with
  | nil => exact absurd hl hne
  | cons c cs =>
    have hc : c.isDigit = true := hdig c (by rw [hl]; exact List.mem_cons_self _ _)
    have hget : (Nat.repr n).get 0 = c := get_zero_of_data _ c cs (by rw [hdata, hl])
    have hminus : c ≠ '-' := by
      intro h
      rw [h] at hc
      exact absurd hc (by decide)
    simp only [String.toInt?, hget, hminus, if_false, toNat?_repr]
    rfl

/-- Claim C10: `Generator` renders each member value through a conversion to a 32-bit
unsigned integer.  The text written is the head line followed by one line per member
whose number is the decimal rendering of `v mod 2^32` for the member's value `v`;
read back, those digits denote `v mod 2^32`; and that number is `v` exactly when
`0 ≤ v < 2^32`, so a negative or wider value is emitted wrapped, not rejected. -/
theorem Generator_value_conversion (cout name : String) (mapping : List ConstantMapping)
    (flagtype : FlagType) :
    Generator cout name mapping flagtype
        = cout ++ unlines (classLine name flagtype ::
            mapping.map
              (fun m => "    " ++ m.name ++ " = " ++ Nat.repr (m.value % 2 ^ 32).toNat))
          ++ endl ++ endl
      ∧ ∀ m ∈ mapping,
          (Nat.repr (m.value % 2 ^ 32).toNat).toNat? = some (m.value % 2 ^ 32).toNat
            ∧ ((((m.value % 2 ^ 32).toNat : Nat) : Int) = m.value % 2 ^ 32)
            ∧ ((((m.value % 2 ^ 32).toNat : Nat) : Int) = m.value
                ↔ 0 ≤ m.value ∧ m.value < 2 ^ 32) := by
  refine ⟨Generator_eq cout name mapping flagtype, ?_⟩
  intro m _
  have h0 : 0 ≤ m.value % 2 ^ 32 := Int.emod_nonneg _ (by norm_num)
  have h1 : m.value % 2 ^ 32 < 2 ^ 32 := Int.emod_lt_of_pos _ (by norm_num)
  refine ⟨toNat?_repr _, Int.toNat_of_nonneg h0, ?_⟩
  rw [Int.toNat_of_nonneg h0]
  constructor
  · intro h
    rw [h] at h0 h1
    exact ⟨h0, h1⟩
  · rintro ⟨ha, hb⟩
    exact Int.emod_eq_of_lt ha hb

/-- Claim C4, as it is stated, fails: for the one-member list `[("X", -1)]` the member
line written is `    X = 4294967295`, not four spaces, the name, ` = ` and the decimal
rendering `-1` of the value. -/
theorem Generator_member_lines_counterexample :
    Generator "" "E" [ConstantMapping.mk "X" (-1)]
        = "class E(Enum):\n    X = 4294967295\n\n\n"
      ∧ specMemberLine (ConstantMapping.mk "X" (-1)) = "    X = -1"
      ∧ Generator "" "E" [ConstantMapping.mk "X" (-1)]
          ≠ "" ++ unlines (classLine "E" FlagType.NONE
                :: [ConstantMapping.mk "X" (-1)].map specMemberLine) ++ endl ++ endl := by
  decide

/-- Claim C4, amended: for every namespace name and every ordered list of (member name,
integer value) pairs whose values lie in `0 ≤ v < 2^32`, `Generator` writes, after the
head line, exactly one member line per pair, in the order of the list; the `i`-th member
line is four spaces, the `i`-th name, ` = ` and the decimal rendering of the `i`-th value,
and that rendering denotes the value. -/
theorem Generator_member_lines (cout name : String) (mapping : List ConstantMapping)
    (flagtype : FlagType) (hrange : ∀ m ∈ mapping, 0 ≤ m.value ∧ m.value < 2 ^ 32) :
    Generator cout name mapping flagtype
        = cout ++ unlines (classLine name flagtype :: mapping.map specMemberLine)
            ++ endl ++ endl
      ∧ (mapping.map specMemberLine).length = mapping.length
      ∧ (∀ (i : Nat) (h : i < mapping.length),
          (mapping.map specMemberLine)[i]?
            = some ("    " ++ mapping[i].name ++ " = " ++ toString mapping[i].value))
      ∧ ∀ m ∈ mapping, (toString m.value).toInt? = some m.value := by
  have hmap : mapping.map memberLine = mapping.map specMemberLine :=
    List.map_congr_left fun m hm => memberLine_of_range m (hrange m hm).1 (hrange m hm).2
  refine ⟨?_, List.length_map _ _, ?_, ?_⟩
  · rw [Generator_eq, hmap]
  · intro i h
    rw [List.getElem?_map, List.getElem?_eq_getElem h]
    rfl
  · intro m hm
    obtain ⟨n, hn⟩ := Int.eq_ofNat_of_zero_le (hrange m hm).1
    rw [hn]
    exact toInt?_toString_ofNat n

/-- The amended claim C4 at the namespace of the specification's example,
`[("UNSET", 0), ("CONFIG", 1)]`: the lines `    UNSET = 0` then `    CONFIG = 1`. -/
theorem Generator_member_lines_witness :
    (∀ m ∈ [ConstantMapping.mk "UNSET" 0, ConstantMapping.mk "CONFIG" 1],
        0 ≤ m.value ∧ m.value < 2 ^ 32)
      ∧ Generator "" "Status" [ConstantMapping.mk "UNSET" 0, ConstantMapping.mk "CONFIG" 1]
          = "class Status(Enum):\n    UNSET = 0\n    CONFIG = 1\n\n\n" :=
  have hrange : ∀ m ∈ [ConstantMapping.mk "UNSET" 0, ConstantMapping.mk "CONFIG" 1],
      0 ≤ m.value ∧ m.value < 2 ^ 32 := by decide
  ⟨hrange,
    (Generator_member_lines "" "Status"
      [ConstantMapping.mk "UNSET" 0, ConstantMapping.mk "CONFIG" 1] FlagType.NONE hrange).1.trans
      (by decide)⟩

/-- Claim C6: the first line `Generator` writes is `class n(IntFlag):` exactly when the
namespace is marked `FlagType::INTFLAG`, and `class n(Enum):` for `FlagType::NONE` and
for every other flag value; a call that omits the flag argument is the call with
`FlagType::NONE`.  (A line is the text written up to a `std::endl`.) -/
theorem Generator_class_line (cout name : String) (mapping : List ConstantMapping)
    (flagtype : FlagType) :
    (∃ rest, Generator cout name mapping flagtype
        = cout ++ "class " ++ name
            ++ (if flagtype = FlagType.INTFLAG then "(IntFlag):" else "(Enum):") ++ endl ++ rest)
      ∧ ((cout ++ "class " ++ name ++ "(IntFlag):" ++ endl).data
            <+: (Generator cout name mapping flagtype).data
          ↔ flagtype = FlagType.INTFLAG)
      ∧ ((cout ++ "class " ++ name ++ "(Enum):" ++ endl).data
            <+: (Generator cout name mapping flagtype).data
          ↔ flagtype ≠ FlagType.INTFLAG)
      ∧ Generator cout name mapping = Generator cout name mapping FlagType.NONE
      ∧ FlagType.NONE ≠ FlagType.INTFLAG := by
  have hG := Generator_eq cout name mapping flagtype
  refine ⟨⟨unlines (mapping.map memberLine) ++ endl ++ endl, ?_⟩, ?_, ?_, rfl, by decide⟩
  · rw [hG]
    simp only [unlines, classLine, String.append_assoc]
  · rw [hG]
    by_cases hf : flagtype = FlagType.INTFLAG
    · simp only [hf, unlines, classLine, if_true, String.append_assoc, String.data_append,
        iff_true]
      simp [List.prefix_append_right_inj]
    · simp only [hf, unlines, classLine, if_false, String.append_assoc, String.data_append,
        iff_false]
      simp [List.prefix_append_right_inj]
  · rw [hG]
    by_cases hf : flagtype = FlagType.INTFLAG
    · simp only [hf, unlines, classLine, if_true, String.append_assoc, String.data_append]
      simp [List.prefix_append_right_inj]
    · simp only [hf, unlines, classLine, if_false, String.append_assoc, String.data_append]
      simp [List.prefix_append_right_inj, hf]

set_option maxRecDepth 100000 in
/-- Claim C5, as it is stated, fails: two runs over the same constant namespaces that
are started under different program names write different text. -/
theorem main_deterministic_counterexample :
    namespaces positionalConstants = namespaces positionalConstants
      ∧ (main "a" "21" positionalConstants "").1 ≠ (main "b" "21" positionalConstants "").1 := by
  decide

/-- Claim C5, amended: two runs of `main` started under the same program name, built
with the same version identifier, and run over the same constant namespaces write the
same text, byte for byte, and end with the same status; the text is a function
(`fileLines`) of the program name, the version identifier and the namespaces. -/
theorem main_deterministic (argv0 PACKAGE_GUIVERSION : String) (K K' : Constants)
    (cout : String) (h : namespaces K = namespaces K') :
    main argv0 PACKAGE_GUIVERSION K cout = main argv0 PACKAGE_GUIVERSION K' cout
      ∧ (main argv0 PACKAGE_GUIVERSION K cout).1
          = cout ++ unlines (fileLines argv0 PACKAGE_GUIVERSION (namespaces K)) := by
  rw [main_eq, main_eq, h]
  exact ⟨rfl, rfl⟩

/-- The amended claim C5 at two tables of constants that are written differently and
give the same namespaces. -/
theorem main_deterministic_witness :
    namespaces positionalConstants
        = namespaces (Constants.mk (fun e => e.toCtorIdx + 0) positionalConstants.statusMinor
            positionalConstants.eventType positionalConstants.clientAttentionType
            positionalConstants.clientAttentionGroup positionalConstants.netCfgChangeType)
      ∧ main "gen-python-constants" "21" positionalConstants ""
          = main "gen-python-constants" "21"
              (Constants.mk (fun e => e.toCtorIdx + 0) positionalConstants.statusMinor
                positionalConstants.eventType positionalConstants.clientAttentionType
                positionalConstants.clientAttentionGroup positionalConstants.netCfgChangeType)
              "" :=
  have h : namespaces positionalConstants
      = namespaces (Constants.mk (fun e => e.toCtorIdx + 0) positionalConstants.statusMinor
          positionalConstants.eventType positionalConstants.clientAttentionType
          positionalConstants.clientAttentionGroup positionalConstants.netCfgChangeType) := by
    decide
  ⟨h, (main_deterministic "gen-python-constants" "21" positionalConstants _ "" h).1⟩

/-- Claim C9: for every program name and version identifier the text `main` writes
starts with the `#` comment header, which holds the line
`# Do not modify this file.  This file needs to be`, then the line
`from enum import Enum, IntFlag`, then the line `VERSION = '<version>'`; none of the
lines written before the head line of `StatusMajor` starts with `class `; and the lines
that do are the head lines of `StatusMajor`, `StatusMinor`, `SessionManagerEventType`,
`ClientAttentionType`, `ClientAttentionGroup`, `NetCfgChangeType`, in this order.
(A line is the text written up to a `std::endl`.) -/
theorem main_layout (argv0 PACKAGE_GUIVERSION : String) (K : Constants) (cout : String) :
    (main argv0 PACKAGE_GUIVERSION K cout).1
        = cout ++ unlines (fileLines argv0 PACKAGE_GUIVERSION (namespaces K))
      ∧ (fileLines argv0 PACKAGE_GUIVERSION (namespaces K)).take 18
          = [ "#",
              "# Generated by " ++ argv0,
              "# as part of the project build.",
              "#",
              "# This file is part of openvpn3-linux, licensed",
              "# under AGPLv3.  Please see the main COPYRIGHT.md",
              "# file packaged with the project for more details.",
              "#",
              "# Do not modify this file.  This file needs to be",
              "# regenerated each time any of the OpenVPN 3 Linux",
              "# constants are modified.",
              "#",
              "",
              "from enum import Enum, IntFlag",
              "",
              "VERSION = '" ++ PACKAGE_GUIVERSION ++ "'",
              "",
              "class StatusMajor(Enum):" ]
      ∧ (∀ l ∈ (fileLines argv0 PACKAGE_GUIVERSION (namespaces K)).take 17,
          isClassLine l = false)
      ∧ (fileLines argv0 PACKAGE_GUIVERSION (namespaces K)).filter isClassLine
          = [ "class StatusMajor(Enum):",
              "class StatusMinor(Enum):",
              "class SessionManagerEventType(Enum):",
              "class ClientAttentionType(Enum):",
              "class ClientAttentionGroup(Enum):",
              "class NetCfgChangeType(IntFlag):" ] := by
  refine ⟨by rw [main_eq], rfl, ?_, rfl⟩
  have hall : ((fileLines argv0 PACKAGE_GUIVERSION (namespaces K)).take 17).all
      (fun l => !isClassLine l) = true := rfl
  intro l hl
  have := List.all_eq_true.mp hall l hl
  simpa using this

/-! Claims about the stream writers -/

/-- Claim C1: for every message `m`, every `p` and `s` written before and after it, and
every prior sink content `b`, a `StreamLogWriter::Write(m, p, s)` that the sink takes
leaves the sink holding exactly `b ++ p ++ m ++ s` and reports success: nothing else
is written, no line break either; with `p` and `s` omitted the bytes added are
exactly `m`. -/
theorem StreamLogWriter_Write_exact (w : StreamLogWriter) (m p s b : String)
    (hb : w.dest.content = b) (haccepts : w.dest.accepts w.dest.attempts = true) :
    (w.Write m p s).2.dest.content = b ++ p ++ m ++ s
      ∧ (w.Write m p s).1 = Except.ok ()
      ∧ (w.Write m).2.dest.content = b ++ m
      ∧ (w.Write m).1 = Except.ok () := by
  subst hb
  simp only [StreamLogWriter.Write, Sink.write, haccepts, if_true, String.append_assoc,
    String.empty_append, String.append_empty, and_self]

/-- Claim C1 at the scenarios of the specification: `Write("x", "[", "]")` on an empty
sink leaves `[x]`, and `Write("hello")` leaves `hello`. -/
theorem StreamLogWriter_Write_exact_witness :
    ((StreamLogWriter.mk (Sink.mk "stdout" "" 0 (fun _ => true))).Write "x" "[" "]").2.dest.content
        = "[x]"
      ∧ ((StreamLogWriter.mk (Sink.mk "stdout" "" 0 (fun _ => true))).Write "hello").2.dest.content
        = "hello" :=
  have h := StreamLogWriter_Write_exact
    (StreamLogWriter.mk (Sink.mk "stdout" "" 0 (fun _ => true))) "x" "[" "]" "" rfl rfl
  have h' := StreamLogWriter_Write_exact
    (StreamLogWriter.mk (Sink.mk "stdout" "" 0 (fun _ => true))) "hello" "" "" "" rfl rfl
  ⟨h.1, h'.2.2.1⟩

/-- Claim C2: for every group `g`, category `c` and message `m`,
`ColourStreamWriter::Write(g, c, m)` does to the sink, and reports, exactly what
`StreamLogWriter::Write(m, p, s)` does, where `(p, s)` is the one pair the colour
policy returns for `(g, c)`; a write the sink takes adds `p ++ m ++ s`.  The policy
stays the writer's policy. -/
theorem ColourStreamWriter_Write_delegates (w : ColourStreamWriter) (g : LogGroup)
    (c : LogCategory) (m : String) :
    (w.Write g c m).2.toStreamLogWriter
        = (w.toStreamLogWriter.Write m (w.colours.Decorate g c).1
            (w.colours.Decorate g c).2).2
      ∧ (w.Write g c m).1
        = (w.toStreamLogWriter.Write m (w.colours.Decorate g c).1
            (w.colours.Decorate g c).2).1
      ∧ (w.Write g c m).2.colours = w.colours
      ∧ (w.Write g c m).2.dest.content
        = (if w.dest.accepts w.dest.attempts then
            w.dest.content ++ (w.colours.Decorate g c).1 ++ m ++ (w.colours.Decorate g c).2
          else w.dest.content) := by
  refine ⟨rfl, rfl, rfl, ?_⟩
  simp only [ColourStreamWriter.Write, StreamLogWriter.Write, Sink.write]
  split <;> simp only [String.append_assoc]

/-- Claim C2 at the scenario of the specification: a policy that decorates every event
with `("\x1b[31m", "\x1b[0m")`, and `Write(group, category, "boom")` on an empty sink,
leave `\x1b[31mboom\x1b[0m`. -/
theorem ColourStreamWriter_Write_delegates_witness :
    ((ColourStreamWriter.mk (StreamLogWriter.mk (Sink.mk "stdout" "" 0 (fun _ => true)))
          (ColourEngine.mk (fun _ _ => ("\x1b[31m", "\x1b[0m")))).Write
        (LogGroup.mk 3) (LogCategory.mk 7) "boom").2.dest.content
      = "\x1b[31mboom\x1b[0m" :=
  (ColourStreamWriter_Write_delegates
    (ColourStreamWriter.mk (StreamLogWriter.mk (Sink.mk "stdout" "" 0 (fun _ => true)))
      (ColourEngine.mk (fun _ _ => ("\x1b[31m", "\x1b[0m"))))
    (LogGroup.mk 3) (LogCategory.mk 7) "boom").2.2.2.trans (by decide)

/-- Claim C3, the equivalence law: under a colour policy that maps every
(group, category) to `("", "")`, `ColourStreamWriter::Write(g, c, m)` leaves the same
sink and reports the same as `StreamLogWriter::Write(m)` on that sink; a write the
sink takes appends exactly `m`. -/
theorem ColourStreamWriter_noColour_equiv (w : ColourStreamWriter) (g : LogGroup)
    (c : LogCategory) (m : String)
    (hpolicy : ∀ g c, w.colours.Decorate g c = ("", "")) :
    (w.Write g c m).2.toStreamLogWriter = (w.toStreamLogWriter.Write m).2
      ∧ (w.Write g c m).1 = (w.toStreamLogWriter.Write m).1
      ∧ (w.Write g c m).2.dest.content
        = (if w.dest.accepts w.dest.attempts then w.dest.content ++ m else w.dest.content) := by
  have hdeco : w.colours.Decorate g c = ("", "") := hpolicy g c
  refine ⟨?_, ?_, ?_⟩
  · simp only [ColourStreamWriter.Write, hdeco]
  · simp only [ColourStreamWriter.Write, hdeco]
  · simp only [ColourStreamWriter.Write, StreamLogWriter.Write, Sink.write, hdeco]
    split <;> simp only [String.empty_append, String.append_empty]

/-- Claim C3 at the scenario of the specification: with the no-colour policy,
`Write(group, category, "boom")` on an empty sink leaves `boom`. -/
theorem ColourStreamWriter_noColour_equiv_witness :
    (∀ g c, ColourEngine.noColour.Decorate g c = ("", ""))
      ∧ ((ColourStreamWriter.mk (StreamLogWriter.mk (Sink.mk "stdout" "" 0 (fun _ => true)))
            ColourEngine.noColour).Write (LogGroup.mk 3) (LogCategory.mk 7) "boom").2.dest.content
          = "boom" :=
  ⟨fun _ _ => rfl,
    (ColourStreamWriter_noColour_equiv
      (ColourStreamWriter.mk (StreamLogWriter.mk (Sink.mk "stdout" "" 0 (fun _ => true)))
        ColourEngine.noColour)
      (LogGroup.mk 3) (LogCategory.mk 7) "boom" (fun _ _ => rfl)).2.2⟩

/-- Claim C7: if the sink faults on a write, `StreamLogWriter::Write` reports the
failure to its caller: the outcome is the fault, which differs from the outcome of a
successful write, so it is not swallowed; and the write is not retried: one write
operation was made on the sink, whatever the sink would have done with a second, and
the sink holds what it held. -/
theorem StreamLogWriter_Write_fault (w : StreamLogWriter) (m p s : String)
    (hfault : w.dest.accepts w.dest.attempts = false) :
    (w.Write m p s).1 = Except.error Fault.sinkFault
      ∧ (w.Write m p s).1 ≠ Except.ok ()
      ∧ (w.Write m p s).2.dest.attempts = w.dest.attempts + 1
      ∧ (w.Write m p s).2.dest.content = w.dest.content := by
  simp only [StreamLogWriter.Write, Sink.write, hfault]
  refine ⟨rfl, ?_, rfl, rfl⟩
  intro h
  cases h

/-- Claim C7 at a sink that faults on its first write operation and would take the
second: `Write` reports the fault, has made one operation, and the sink is empty
still. -/
theorem StreamLogWriter_Write_fault_witness :
    (Sink.mk "stdout" "" 0 (fun n => decide (0 < n))).accepts 0 = false
      ∧ (Sink.mk "stdout" "" 0 (fun n => decide (0 < n))).accepts 1 = true
      ∧ ((StreamLogWriter.mk (Sink.mk "stdout" "" 0 (fun n => decide (0 < n)))).Write
            "hello").1 = Except.error Fault.sinkFault
      ∧ ((StreamLogWriter.mk (Sink.mk "stdout" "" 0 (fun n => decide (0 < n)))).Write
            "hello").2.dest.attempts = 1
      ∧ ((StreamLogWriter.mk (Sink.mk "stdout" "" 0 (fun n => decide (0 < n)))).Write
            "hello").2.dest.content = "" :=
  have h := StreamLogWriter_Write_fault
    (StreamLogWriter.mk (Sink.mk "stdout" "" 0 (fun n => decide (0 < n)))) "hello" "" "" rfl
  ⟨rfl, rfl, h.1, h.2.2.1, h.2.2.2⟩

/-- Claim C8: for every sink and every colour policy, `GetLogWriterInfo()` of the
`ColourStreamWriter` returns the descriptor that `GetLogWriterInfo()` of the
`StreamLogWriter` bound to that sink returns, and a write through either form leaves
it as it was. -/
theorem ColourStreamWriter_GetLogWriterInfo_eq (dst : Sink) (ce : ColourEngine)
    (g : LogGroup) (c : LogCategory) (m : String) :
    (ColourStreamWriter.mk (StreamLogWriter.mk dst) ce).GetLogWriterInfo
        = (StreamLogWriter.mk dst).GetLogWriterInfo
      ∧ ((ColourStreamWriter.mk (StreamLogWriter.mk dst) ce).Write g c m).2.GetLogWriterInfo
        = (StreamLogWriter.mk dst).GetLogWriterInfo
      ∧ ((StreamLogWriter.mk dst).Write m).2.GetLogWriterInfo
        = (StreamLogWriter.mk dst).GetLogWriterInfo := by
  refine ⟨rfl, ?_, ?_⟩
  · simp only [ColourStreamWriter.Write, StreamLogWriter.Write, Sink.write,
      ColourStreamWriter.GetLogWriterInfo, StreamLogWriter.GetLogWriterInfo]
    split <;> rfl
  · simp only [StreamLogWriter.Write, Sink.write, StreamLogWriter.GetLogWriterInfo]
    split <;> rfl

end OpenVPN3
